import Mathlib

/-!
Verification of the resilient paginated fetch engine in `rickandmorty.py`
(functions `fetcher`, `fetch_page`, `iter_pages`, plus the CLI default for
`--max-pages`).  The Python code is shallowly embedded: the outcome of each
`session.get` call is supplied by an oracle `get : Nat → GetOutcome` indexed
by the 1-based attempt number, blocking sleeps are recorded as a list of
durations (rationals model the exact float arithmetic `backoff *= 2`), and
raised exceptions become explicit result constructors.
-/

/-- Items of a page (`data['results']` entries) are opaque records; we
abstract them as natural numbers. -/
abbrev Item := Nat

/-- A decoded JSON body, as far as the engine inspects it: the optional
top-level `info` field (carrying the nullable `info['next']` URL) and the
optional top-level `results` field.  `info = none` models a body without an
`info` key; `info = some next_url` models `{"info": {"next": ...}}`. -/
structure Payload where
  info : Option (Option String)
  results : Option (List Item)
deriving DecidableEq

/-- An HTTP response: its status code and its body (`none` when the body is
not decodable as JSON, `some p` when `response.json()` yields `p`). -/
structure Resp where
  status : Nat
  body : Option Payload
deriving DecidableEq

/-- Outcome of one `session.get(url, params=params, timeout=timeout)` call:
either one of the caught transport exceptions (`requests.ConnectionError`,
`requests.Timeout`, `requests.ReadTimeout`) or a received response. -/
inductive GetOutcome where
  | exc
  | ok (r : Resp)
deriving DecidableEq

/-- How one call of `fetcher` ends. -/
inductive FetchResult where
  /-- `return response.json()` with a decodable body. -/
  | payload (p : Payload)
  /-- the bare transport exception re-raised by `raise`. -/
  | transportError
  /-- Python's `UnboundLocalError`: `response` consulted before any
  assignment to it succeeded. -/
  | unboundLocalError
  /-- `requests.HTTPError` from `response.raise_for_status()`. -/
  | httpStatusError (code : Nat)
  /-- `response.json()` on a body that is not valid JSON. -/
  | jsonDecodeError
deriving DecidableEq

/-- Observable trace of one `fetcher` call: its result, the list of sleep
durations in order, and how many GET requests were issued. -/
structure RunLog where
  result : FetchResult
  sleeps : List ℚ
  gets : Nat
deriving DecidableEq

/-- `RETRY_CODES = {429, 504, 503, 502, 501}` (module-level constant). -/
def RETRY_CODES : List Nat := [429, 504, 503, 502, 501]

/-- Mutable locals of `fetcher`'s loop: `backoff`, the (possibly unbound)
variable `response`, plus the recorded sleeps and GET count. -/
structure FetchSt where
  backoff : ℚ
  response : Option Resp
  sleeps : List ℚ
  gets : Nat

/-- `return response.json()` after the loop: `UnboundLocalError` if
`response` was never assigned, a JSON decode error if the body is not JSON,
otherwise the decoded payload. -/
def finishFetch (st : FetchSt) : RunLog :=
  match st.response with
  | none => ⟨.unboundLocalError, st.sleeps, st.gets⟩
  | some r =>
    match r.body with
    | none => ⟨.jsonDecodeError, st.sleeps, st.gets⟩
    | some p => ⟨.payload p, st.sleeps, st.gets⟩

/-- The body of `for attempt in range(1, tries + 1)` in `fetcher`, embedded
exactly as written in the source, misindentation included: the whole
status-classification block (`if response.status_code in RETRY_CODES: ...`
and `response.raise_for_status()`) lies INSIDE the `except` clause, so it
runs only after a transport exception and reads whatever `response` held
from a previous attempt (unbound on the first).  When the GET returns a
response, the loop body does nothing further and the next attempt begins. -/
def fetcherLoop (get : Nat → GetOutcome) (tries attempt rem : Nat)
    (st : FetchSt) : RunLog :=
  match rem with
  | 0 => finishFetch st
  | rem' + 1 =>
    let st1 : FetchSt := { st with gets := st.gets + 1 }
    match get attempt with
    | .ok r =>
      fetcherLoop get tries (attempt + 1) rem' { st1 with response := some r }
    | .exc =>
      if attempt = tries then
        ⟨.transportError, st1.sleeps, st1.gets⟩
      else
        let st2 : FetchSt :=
          { st1 with sleeps := st1.sleeps ++ [st1.backoff],
                     backoff := st1.backoff * 2 }
        match st2.response with
        | none => ⟨.unboundLocalError, st2.sleeps, st2.gets⟩
        | some r =>
          if r.status ∈ RETRY_CODES then
            if attempt = tries then
              ⟨.transportError, st2.sleeps, st2.gets⟩
            else
              fetcherLoop get tries (attempt + 1) rem'
                { st2 with sleeps := st2.sleeps ++ [st2.backoff],
                           backoff := st2.backoff * 2 }
          else if 400 ≤ r.status then
            ⟨.httpStatusError r.status, st2.sleeps, st2.gets⟩
          else
            fetcherLoop get tries (attempt + 1) rem' st2

/-- `fetcher(session, url, params, timeout, tries, initial_backoff)`.  The
network environment is the oracle `get`; `session`, `url`, `params` and
`timeout` only determine that oracle and are not otherwise inspected.
`range(1, tries + 1)` performs exactly `tries` iterations with `attempt`
running 1, 2, ..., `tries`; `rem` counts the iterations still to run. -/
def fetcher (get : Nat → GetOutcome) (tries : Nat) (initial_backoff : ℚ) :
    RunLog :=
  fetcherLoop get tries 1 tries ⟨initial_backoff, none, [], 0⟩

/-- How `fetch_page` / the body of `iter_pages` can fail: either the inner
`fetcher` call raised (its error propagates), or the line
`raise "Missing expected keys in response"` ran.  In Python 3 raising a bare
string is not a typed exception: the constructor name records that the
raised value is a non-exception string, which the interpreter turns into
`TypeError: exceptions must derive from BaseException`. -/
inductive PageError where
  | fetchFailed (e : FetchResult)
  | raisedNonException (msg : String)
deriving DecidableEq

/-- The response handling of `fetch_page`, taking the outcome of its
`fetcher(session, url, params)` call as input: check for the `info` and
`results` keys (raising the bare string when either is missing) and return
`(data['results'], data['info']['next'])`. -/
def fetch_page (fetched : Except FetchResult Payload) :
    Except PageError (List Item × Option String) :=
  match fetched with
  | .error e => .error (.fetchFailed e)
  | .ok data =>
    match data.info, data.results with
    | some nxt, some items => .ok (items, nxt)
    | _, _ => .error (.raisedNonException "Missing expected keys in response")

/-- How a fully consumed `iter_pages` generator ends: `StopIteration` after a
`break` (`done`), an exception propagating out of the generator (`errored`),
or still running after the modelling fuel ran out (`outOfFuel` — the
generator itself has no such case; it marks a run that did not terminate
within `fuel` loop iterations). -/
inductive IterStatus where
  | done
  | errored (e : PageError)
  | outOfFuel
deriving DecidableEq

/-- Observable trace of a fully consumed `iter_pages` generator: the batches
it yielded in order, how it ended, and how many follow-up `fetcher` calls on
`next_url` it made (the initial `fetch_page` call is not counted). -/
structure IterRun where
  batches : List (List Item)
  status : IterStatus
  urlFetches : Nat
deriving DecidableEq

/-- The guard `max_pages is not None and pages_fetched >= max_pages` of
`iter_pages`. -/
def capReached (maxPages : Option Nat) (pagesFetched : Nat) : Bool :=
  match maxPages with
  | none => false
  | some m => decide (m ≤ pagesFetched)

/-- The `while True` loop of `iter_pages`, embedded over an oracle
`byUrl : String → Except FetchResult Payload` giving the outcome of
`fetcher(session, next_url)` for each URL.  `pagesFetched` and the mutable
`items` / `next_url` are the loop's locals; `acc` collects the yielded
batches; `fuel` bounds the number of modelled iterations. -/
def iterLoop (byUrl : String → Except FetchResult Payload)
    (maxPages : Option Nat) (items : List Item) (nextUrl : Option String)
    (pagesFetched : Nat) (acc : List (List Item)) (fuel : Nat) : IterRun :=
  match fuel with
  | 0 => ⟨acc, .outOfFuel, 0⟩
  | fuel' + 1 =>
    if items = [] then ⟨acc, .done, 0⟩
    else
      let acc' := acc ++ [items]
      let pagesFetched' := pagesFetched + 1
      if capReached maxPages pagesFetched' then
        ⟨acc', .done, 0⟩
      else
        match nextUrl with
        | none => ⟨acc', .done, 0⟩
        | some u =>
          match byUrl u with
          | .error e => ⟨acc', .errored (.fetchFailed e), 1⟩
          | .ok data =>
            match data.info, data.results with
            | some nxt', some items' =>
              let r := iterLoop byUrl maxPages items' nxt' pagesFetched'
                acc' fuel'
              { r with urlFetches := r.urlFetches + 1 }
            | _, _ =>
              ⟨acc', .errored
                (.raisedNonException "Missing expected keys in response"), 1⟩

/-- `iter_pages(session, base_url, path, base_params, start_page, max_pages)`
with the network abstracted: `first` is the outcome of the initial
`fetcher` call made through `fetch_page(..., start_page, base_params)` and
`byUrl` the outcomes of the `fetcher(session, next_url)` calls.
`max_pages` defaults to `None` in the source. -/
def iter_pages (first : Except FetchResult Payload)
    (byUrl : String → Except FetchResult Payload)
    (maxPages : Option Nat) (fuel : Nat) : IterRun :=
  match fetch_page first with
  | .error e => ⟨[], .errored e, 0⟩
  | .ok (items, nextUrl) => iterLoop byUrl maxPages items nextUrl 0 [] fuel

/-- Default of the CLI option `--max-pages` in `parse_cli`
(`fetch.add_argument('--max-pages', type=int, default=10, ...)`); `main`
always passes `args.max_pages` to `iter_pages` in `--all` mode. -/
def cliDefaultMaxPages : Nat := 10

/-- A query-parameter value: the caller's base parameters hold strings, and
`fetch_page` stores the integer `page_number`. -/
inductive Val where
  | s (v : String)
  | i (v : Int)
deriving DecidableEq

/-- A Python dict with string keys, modelled as an insertion-ordered
association list with unique keys. -/
abbrev Dict := List (String × Val)

/-- The statement `d[k] = v`: if `k` is already a key, its value is replaced
in place (the key keeps its position); otherwise the pair is appended. -/
def dictSet (d : Dict) (k : String) (v : Val) : Dict :=
  match d with
  | [] => [(k, v)]
  | (k', v') :: rest =>
    if k' = k then (k, v) :: rest else (k', v') :: dictSet rest k v

/-- `d.get(k)`: the value stored under `k`, if any. -/
def dictGet (d : Dict) (k : String) : Option Val :=
  match d with
  | [] => none
  | (k', v') :: rest => if k' = k then some v' else dictGet rest k

/-- A heap of dict objects; a reference is an index into it.  This makes
Python's aliasing of mutable dicts explicit, so that "`fetch_page` does not
mutate the caller's dict" is a real statement about the heap. -/
structure Store where
  dicts : List Dict

/-- Dereference `r` (out-of-range references read as an empty dict; the
theorems only use valid references). -/
def Store.read (st : Store) (r : Nat) : Dict := st.dicts.getD r []

/-- Allocate a fresh dict object holding `d`; returns the new heap and the
new reference. -/
def Store.alloc (st : Store) (d : Dict) : Store × Nat :=
  (⟨st.dicts ++ [d]⟩, st.dicts.length)

/-- Overwrite the object at `r`. -/
def Store.write (st : Store) (r : Nat) (d : Dict) : Store :=
  ⟨st.dicts.set r d⟩

/-- The parameter construction of `fetch_page`:
`params = dict(base_params or {})` allocates a NEW dict whose contents copy
the caller's dict (or are empty when `base_params` is `None` or empty — in
either case the copied contents coincide with those of `base_params or {}`),
and `params['page'] = page_number` then updates that new dict in place.
Returns the updated heap and the reference bound to `params`. -/
def fetchPageParams (st : Store) (baseParams : Option Nat)
    (pageNumber : Int) : Store × Nat :=
  let src : Dict :=
    match baseParams with
    | none => []
    | some r => st.read r
  let alloc := st.alloc src
  let st1 := alloc.1
  let params := alloc.2
  let st2 := st1.write params (dictSet (st1.read params) "page" (.i pageNumber))
  (st2, params)

/-! ## Concrete fixtures -/

/-- A valid body: `info` present with `next = None`, `results` present. -/
def okPayload : Payload := ⟨some none, some [1, 2]⟩

/-- A valid body whose `info['next']` links to a further page `"u"`. -/
def linkedPayload : Payload := ⟨some (some "u"), some [1, 2]⟩

/-- A body with `results` but no `info` key. -/
def missingInfoPayload : Payload := ⟨none, some [3]⟩

/-- Status 200 with a valid two-field body. -/
def resp200 : Resp := ⟨200, some okPayload⟩

/-- Status 503 (in `RETRY_CODES`) with a decodable body. -/
def resp503 : Resp := ⟨503, some okPayload⟩

/-- Status 404 (≥ 400, not in `RETRY_CODES`) with a decodable body. -/
def resp404 : Resp := ⟨404, some okPayload⟩

/-! ## Claims about `fetcher` -/

/-- Claim C1: FALSIFIED by the code.  With `tries = 3` and every attempt
returning status 200 with a valid two-field body, the first attempt succeeds
but `fetcher` does not return then: the loop body contains no success path
(the classification block sits inside the `except` clause), so all three GET
requests are issued before `response.json()` of the last response is
returned.  Sleeps are indeed absent, but `gets = 3`, not `1`. -/
theorem c1_success_attempt_does_not_short_circuit :
    fetcher (fun _ => .ok resp200) 3 1 = ⟨.payload okPayload, [], 3⟩ := by
  decide

/-- Claim C2: FALSIFIED by the code.  With every attempt returning status
404 (≥ 400 and not in `RETRY_CODES`) and `tries = 3`, `fetcher` never raises
an HTTP-status error: `response.raise_for_status()` is reachable only inside
the `except` clause, so a 404 response on an attempt without a transport
exception triggers nothing — the loop runs all three attempts and returns
the 404 body's JSON. -/
theorem c2_fatal_status_not_raised :
    fetcher (fun _ => .ok resp404) 3 1 = ⟨.payload okPayload, [], 3⟩ := by
  decide

/-- Claim C3: FALSIFIED by the code.  With `tries = 3`, attempts 1 and 2
returning status 503 and attempt 3 returning status 200 with a valid body,
the run does end with the decoded payload after attempt 3, but the total
time slept is `0`, not `b + 2b`: the retry/backoff block lives inside the
`except` clause and no attempt raised a transport exception, so no sleep is
ever reached (initial backoff `b = 1` here). -/
theorem c3_retryable_statuses_cause_no_sleep :
    fetcher (fun a => if a ≤ 2 then .ok resp503 else .ok resp200) 3 1 =
      ⟨.payload okPayload, [], 3⟩ := by
  decide

/-- Claim C4: FALSIFIED by the code.  No `AttemptsExhausted` wrapper exists
in the source.  A retryable failure on the final allowed attempt ends in one
of two ways, neither of which is an `AttemptsExhausted` error: a 503
response on the final attempt (first conjunct, `tries = 3`, every attempt
503) is not treated as a failure at all — the 503 body's JSON is returned —
and a transport exception on the final attempt (second conjunct,
`tries = 1`) re-raises the bare transport exception unwrapped. -/
theorem c4_no_attempts_exhausted_error :
    fetcher (fun _ => .ok resp503) 3 1 = ⟨.payload okPayload, [], 3⟩ ∧
    fetcher (fun _ => .exc) 1 1 = ⟨.transportError, [], 1⟩ :=
  ⟨by decide, by decide⟩

/-- Claim C5: FALSIFIED by the code (the defect §9 of the spec already
flags).  First conjunct: attempt 1 returns status 404, attempt 2 raises a
transport exception (`tries = 3`); after sleeping `b = 1` the handler runs
`response.raise_for_status()` on attempt 1's stale response, so the
transport failure of attempt 2 is classified as `HTTPError 404` and attempt
3 is never issued (`gets = 2`).  Second conjunct: the very first attempt
raises a transport exception (`tries = 2`); the handler reads the never
assigned variable `response`, an `UnboundLocalError`. -/
theorem c5_stale_response_decides_transport_attempt :
    fetcher (fun a => if a = 1 then .ok resp404 else .exc) 3 1 =
      ⟨.httpStatusError 404, [1], 2⟩ ∧
    fetcher (fun _ => .exc) 2 1 = ⟨.unboundLocalError, [1], 1⟩ := by
  constructor
  · norm_num [fetcher, fetcherLoop, finishFetch, RETRY_CODES, resp404]
  · norm_num [fetcher, fetcherLoop, finishFetch, RETRY_CODES]

/-! ## Claims about `fetch_page` and `iter_pages` -/

/-- Claim C6: FALSIFIED by the code.  When a fetched page body lacks a
required field, both `fetch_page` (first conjunct) and the loop body of
`iter_pages` (second conjunct, after one yielded batch and one follow-up
fetch) execute `raise "Missing expected keys in response"` — a bare string,
not a typed `ProtocolError` exception value (Python 3 turns such a raise
into `TypeError: exceptions must derive from BaseException`). -/
theorem c6_missing_fields_raise_bare_string :
    fetch_page (.ok missingInfoPayload) =
      .error (.raisedNonException "Missing expected keys in response") ∧
    iter_pages (.ok linkedPayload) (fun _ => .ok missingInfoPayload) none 5 =
      ⟨[[1, 2]],
       .errored (.raisedNonException "Missing expected keys in response"),
       1⟩ :=
  ⟨rfl, rfl⟩

/-- Claim C7: CONFIRMED.  Whatever the follow-up oracle, the cap and the
first page's `next` reference, a first page whose `items` list is empty
makes `iter_pages` yield zero batches, terminate normally, and perform zero
follow-up fetches (`while True` hits `if not items: break` before any
yield). -/
theorem c7_empty_first_page_yields_nothing
    (byUrl : String → Except FetchResult Payload) (maxPages : Option Nat)
    (nxt : Option String) (fuel : Nat) :
    iter_pages (.ok ⟨some nxt, some []⟩) byUrl maxPages (fuel + 1) =
      ⟨[], .done, 0⟩ := by
  simp [iter_pages, fetch_page, iterLoop]

/-- Witness for C7 at a concrete oracle, cap and fuel. -/
theorem c7_empty_first_page_yields_nothing_witness :
    iter_pages (.ok ⟨some none, some []⟩)
      (fun _ => .error .transportError) (some 4) 1 = ⟨[], .done, 0⟩ :=
  c7_empty_first_page_yields_nothing (fun _ => .error .transportError)
    (some 4) none 0

/-- Invariant carried through the capped loop: at most `N` batches, exactly
`N` batches only via normal termination, and at most `N - 1 - k` follow-up
fetches when `k` pages have already been yielded. -/
def CapInv (N k : Nat) (r : IterRun) : Prop :=
  r.batches.length ≤ N ∧ (r.batches.length = N → r.status = IterStatus.done) ∧
    r.urlFetches + 1 + k ≤ N

theorem iterLoop_cap_invariant (byUrl : String → Except FetchResult Payload)
    (N fuel : Nat) :
    ∀ items nextUrl k acc, acc.length = k → k < N →
      CapInv N k (iterLoop byUrl (some N) items nextUrl k acc fuel) := by
  induction fuel with
  | zero =>
    intro items nextUrl k acc hlen hk
    simp only [iterLoop, CapInv]
    refine ⟨by omega, ?_, by omega⟩
    intro h
    exfalso
    omega
  | succ fuel' ih =>
    intro items nextUrl k acc hlen hk
    have hlen' : (acc ++ [items]).length = k + 1 := by simp [hlen]
    simp only [iterLoop]
    by_cases hitems : items = []
    · rw [if_pos hitems]
      simp only [CapInv]
      exact ⟨by omega, fun _ => trivial, by omega⟩
    · rw [if_neg hitems]
      by_cases hcap : capReached (some N) (k + 1) = true
      · rw [if_pos hcap]
        simp only [capReached, decide_eq_true_eq] at hcap
        simp only [CapInv]
        exact ⟨by omega, fun _ => trivial, by omega⟩
      · rw [if_neg hcap]
        simp only [capReached, decide_eq_true_eq] at hcap
        split
        · simp only [CapInv]
          exact ⟨by omega, fun _ => trivial, by omega⟩
        · split
          · simp only [CapInv]
            refine ⟨by omega, ?_, by omega⟩
            intro h
            exfalso
            omega
          · split
            · rename_i nxt' its heq1 heq2
              obtain ⟨h1, h2, h3⟩ :=
                ih its nxt' (k + 1) (acc ++ [items]) hlen' (by omega)
              simp only [CapInv] at h1 h2 h3 ⊢
              exact ⟨h1, h2, by omega⟩
            · simp only [CapInv]
              refine ⟨by omega, ?_, by omega⟩
              intro h
              exfalso
              omega

/-- The cap invariant holds from the entry point of `iter_pages` whenever
the cap is positive (covering a failing first fetch as well). -/
theorem iter_pages_cap (first : Except FetchResult Payload)
    (byUrl : String → Except FetchResult Payload) (N fuel : Nat)
    (hN : 0 < N) :
    CapInv N 0 (iter_pages first byUrl (some N) fuel) := by
  unfold iter_pages
  split
  · simp only [CapInv]
    refine ⟨by simp, ?_, by simp; omega⟩
    intro h
    exfalso
    simp at h
    omega
  · rename_i items nextUrl heq
    exact iterLoop_cap_invariant byUrl N fuel items nextUrl 0 [] rfl hN

/-- Claim C8: CONFIRMED.  With `max_pages = N ≥ 1`, any first-fetch outcome
and any follow-up oracle, `iter_pages` yields at most `N` batches; a run
that yields exactly `N` batches terminated normally via the cap check (a
`break`, not an error); and at most `N - 1` follow-up fetches happen, so in
particular page `N + 1` is never fetched (at most `N` pages total are
fetched, the initial one included). -/
theorem c8_max_pages_caps_batches (first : Except FetchResult Payload)
    (byUrl : String → Except FetchResult Payload) (N fuel : Nat)
    (hN : 1 ≤ N) :
    (iter_pages first byUrl (some N) fuel).batches.length ≤ N ∧
    ((iter_pages first byUrl (some N) fuel).batches.length = N →
      (iter_pages first byUrl (some N) fuel).status = IterStatus.done) ∧
    (iter_pages first byUrl (some N) fuel).urlFetches + 1 ≤ N := by
  obtain ⟨h1, h2, h3⟩ := iter_pages_cap first byUrl N fuel hN
  exact ⟨h1, h2, by omega⟩

/-- Witness for C8: the cap `N = 2` on a server whose every page is
non-empty and links onward. -/
theorem c8_max_pages_caps_batches_witness :
    1 ≤ 2 ∧
    ((iter_pages (.ok linkedPayload) (fun _ => .ok linkedPayload) (some 2)
        10).batches.length ≤ 2 ∧
     ((iter_pages (.ok linkedPayload) (fun _ => .ok linkedPayload) (some 2)
        10).batches.length = 2 →
       (iter_pages (.ok linkedPayload) (fun _ => .ok linkedPayload) (some 2)
        10).status = IterStatus.done) ∧
     (iter_pages (.ok linkedPayload) (fun _ => .ok linkedPayload) (some 2)
        10).urlFetches + 1 ≤ 2) :=
  ⟨by decide, c8_max_pages_caps_batches (.ok linkedPayload)
    (fun _ => .ok linkedPayload) 2 10 (by decide)⟩

/-- On the constant server (every page `[1, 2]` with `next = "u"`), the
uncapped loop consumes all its fuel, yielding one batch per iteration. -/
theorem iterLoop_uncapped_const (fuel : Nat) :
    ∀ k acc,
      iterLoop (fun _ => .ok linkedPayload) none [1, 2] (some "u") k acc
        fuel = ⟨acc ++ List.replicate fuel [1, 2], .outOfFuel, fuel⟩ := by
  induction fuel with
  | zero =>
    intro k acc
    simp [iterLoop]
  | succ fuel' ih =>
    intro k acc
    have h := ih (k + 1) (acc ++ [[1, 2]])
    simp only [linkedPayload] at h
    simp [iterLoop, linkedPayload, capReached, h, List.replicate_succ]

/-- With `max_pages` omitted (`None`) on the constant server, the run never
finishes: after `fuel` iterations it has yielded `fuel` batches and is still
going. -/
theorem iter_pages_const_uncapped (fuel : Nat) :
    iter_pages (.ok linkedPayload) (fun _ => .ok linkedPayload) none fuel =
      ⟨List.replicate fuel [1, 2], .outOfFuel, fuel⟩ := by
  have h := iterLoop_uncapped_const fuel 0 []
  simpa [iter_pages, fetch_page, linkedPayload] using h

/-- Claim C9 counterexample: `iter_pages` with the `max_pages` parameter
omitted (its default `None`) applies no finite cap at all: on a server whose
every page has non-empty items and a non-null `next`, no bound `cap` exists
on the number of yielded batches — after `cap + 1` loop iterations the run
has already yielded `cap + 1` batches and is still running. -/
theorem c9_no_default_cap_in_iter_pages :
    ¬ ∃ cap : Nat, ∀ fuel : Nat,
      (iter_pages (.ok linkedPayload) (fun _ => .ok linkedPayload) none
        fuel).batches.length ≤ cap := by
  rintro ⟨cap, hcap⟩
  have h := hcap (cap + 1)
  rw [iter_pages_const_uncapped] at h
  simp at h

/-- Claim C9 (amended): the finite default safety cap is applied by the CLI
layer, not by the page iterator.  `iter_pages` called without `max_pages`
iterates unboundedly (on the constant linked server it has yielded `fuel`
batches and not terminated after any `fuel` iterations), while `parse_cli`
defaults `--max-pages` to 10 and `main` always passes it, and under that cap
every run yields at most 10 batches. -/
theorem c9_default_cap_lives_in_cli (fuel : Nat) :
    (iter_pages (.ok linkedPayload) (fun _ => .ok linkedPayload) none
      fuel).batches.length = fuel ∧
    (iter_pages (.ok linkedPayload) (fun _ => .ok linkedPayload) none
      fuel).status ≠ IterStatus.done ∧
    cliDefaultMaxPages = 10 ∧
    ∀ (first : Except FetchResult Payload)
      (byUrl : String → Except FetchResult Payload) (fuel2 : Nat),
      (iter_pages first byUrl (some cliDefaultMaxPages)
        fuel2).batches.length ≤ cliDefaultMaxPages := by
  refine ⟨by rw [iter_pages_const_uncapped]; simp,
    by rw [iter_pages_const_uncapped]; simp, rfl, ?_⟩
  intro first byUrl fuel2
  exact (iter_pages_cap first byUrl cliDefaultMaxPages fuel2 (by decide)).1

/-- Witness for C9's amended statement at `fuel = 12` (beyond the CLI cap of
10). -/
theorem c9_default_cap_lives_in_cli_witness :
    (iter_pages (.ok linkedPayload) (fun _ => .ok linkedPayload) none
      12).batches.length = 12 ∧
    (iter_pages (.ok linkedPayload) (fun _ => .ok linkedPayload) none
      12).status ≠ IterStatus.done ∧
    cliDefaultMaxPages = 10 ∧
    ∀ (first : Except FetchResult Payload)
      (byUrl : String → Except FetchResult Payload) (fuel2 : Nat),
      (iter_pages first byUrl (some cliDefaultMaxPages)
        fuel2).batches.length ≤ cliDefaultMaxPages :=
  c9_default_cap_lives_in_cli 12

/-- Reading below the length of `l` ignores a trailing allocation. -/
theorem getD_append_lt (l : List Dict) (d : Dict) (r : Nat)
    (hr : r < l.length) : (l ++ [d]).getD r [] = l.getD r [] := by
  induction l generalizing r with
  | nil => simp at hr
  | cons x xs ih =>
    cases r with
    | zero => rfl
    | succ r' =>
      have := ih r' (by simpa using hr)
      simpa using this

/-- Reading the freshly appended cell returns its contents. -/
theorem getD_append_self (l : List Dict) (d : Dict) :
    (l ++ [d]).getD l.length [] = d := by
  induction l with
  | nil => rfl
  | cons x xs ih => simp [ih]

/-- Writing the freshly appended cell leaves every earlier cell alone. -/
theorem getD_set_append_lt (l : List Dict) (d e : Dict) (r : Nat)
    (hr : r < l.length) :
    ((l ++ [d]).set l.length e).getD r [] = l.getD r [] := by
  induction l generalizing r with
  | nil => simp at hr
  | cons x xs ih =>
    cases r with
    | zero => rfl
    | succ r' =>
      have := ih r' (by simpa using hr)
      simpa using this

/-- Writing the freshly appended cell and reading it back yields the write. -/
theorem getD_set_append_self (l : List Dict) (d e : Dict) :
    ((l ++ [d]).set l.length e).getD l.length [] = e := by
  induction l with
  | nil => rfl
  | cons x xs ih => simp [ih]

/-- `d[k] = v` leaves every other key's value unchanged. -/
theorem dictGet_dictSet_ne (d : Dict) (k : String) (v : Val) (k' : String)
    (hne : k' ≠ k) : dictGet (dictSet d k v) k' = dictGet d k' := by
  induction d with
  | nil => simp [dictSet, dictGet, Ne.symm hne]
  | cons p rest ih =>
    obtain ⟨k0, v0⟩ := p
    by_cases h0 : k0 = k
    · subst h0
      simp [dictSet, dictGet, Ne.symm hne]
    · by_cases h1 : k0 = k'
      · subst h1
        simp [dictSet, dictGet, h0, hne, ih]
      · simp [dictSet, dictGet, h0, h1, ih]

/-- Claim C10: CONFIRMED.  `fetch_page` never mutates the caller's
`base_params` dict: `params = dict(base_params or {})` allocates a fresh
dict, so after `params['page'] = page_number` the caller's dict reads back
unchanged, the `params` reference is distinct from the caller's, the new
dict holds exactly the caller's entries with `page` set, and every key other
than `'page'` keeps the caller's value in the new dict. -/
theorem c10_base_params_not_mutated (st : Store) (r : Nat) (page : Int)
    (hr : r < st.dicts.length) :
    ((fetchPageParams st (some r) page).1).read r = st.read r ∧
    (fetchPageParams st (some r) page).2 ≠ r ∧
    ((fetchPageParams st (some r) page).1).read
        (fetchPageParams st (some r) page).2 =
      dictSet (st.read r) "page" (.i page) ∧
    ∀ k, k ≠ "page" →
      dictGet (((fetchPageParams st (some r) page).1).read
        (fetchPageParams st (some r) page).2) k =
        dictGet (st.read r) k := by
  have hread : ((fetchPageParams st (some r) page).1).read
      (fetchPageParams st (some r) page).2 =
      dictSet (st.read r) "page" (.i page) := by
    simp only [fetchPageParams, Store.read, Store.alloc, Store.write]
    rw [getD_append_self, getD_set_append_self]
  refine ⟨?_, ?_, hread, ?_⟩
  · simp only [fetchPageParams, Store.read, Store.alloc, Store.write]
    rw [getD_set_append_lt _ _ _ r hr]
  · simp only [fetchPageParams, Store.alloc]
    omega
  · intro k hk
    rw [hread]
    exact dictGet_dictSet_ne _ _ _ _ hk

/-- Witness for C10: a one-dict heap holding `{"species": "alien"}`, page 2. -/
theorem c10_base_params_not_mutated_witness :
    0 < (Store.mk [[("species", Val.s "alien")]]).dicts.length ∧
    (((fetchPageParams (Store.mk [[("species", Val.s "alien")]]) (some 0)
        2).1).read 0 = (Store.mk [[("species", Val.s "alien")]]).read 0 ∧
     (fetchPageParams (Store.mk [[("species", Val.s "alien")]]) (some 0)
        2).2 ≠ 0 ∧
     ((fetchPageParams (Store.mk [[("species", Val.s "alien")]]) (some 0)
        2).1).read
        (fetchPageParams (Store.mk [[("species", Val.s "alien")]]) (some 0)
          2).2 =
       dictSet ((Store.mk [[("species", Val.s "alien")]]).read 0) "page"
         (.i 2) ∧
     ∀ k, k ≠ "page" →
       dictGet (((fetchPageParams (Store.mk [[("species", Val.s "alien")]])
          (some 0) 2).1).read
          (fetchPageParams (Store.mk [[("species", Val.s "alien")]]) (some 0)
            2).2) k =
         dictGet ((Store.mk [[("species", Val.s "alien")]]).read 0) k) :=
  ⟨by decide,
   c10_base_params_not_mutated (Store.mk [[("species", Val.s "alien")]]) 0 2
     (by decide)⟩
